import Mathlib

/-!
Verification development for the `monitor_overlay` repository.

The Python source is shallowly embedded in Lean:
* Python floats are modelled as `ℚ` (decimal literals such as `0.86`, `0.3`,
  `1e-3` are rendered as exact rationals);
* Python `int()` applied to a non-negative float is truncation toward zero,
  modelled by `ratTrunc`;
* calls into external libraries (`psutil`, `LibreHardwareMonitor`, Qt font
  metrics, the wall clock) are modelled as environment records supplied to
  each embedded function; a call that may raise is an `Except String` value;
* Python code that can raise is embedded in the `Except String` monad, and
  Python code that can raise `IndexError` via `random.choice([])` returns
  `Option`;
* `random.choice(seq)` is modelled by an injected seed: `randomChoice seq s`
  picks element `s % seq.length`.
-/

namespace MonitorOverlay

/-- Python `int()` of a rational (truncation toward zero, as in CPython). -/
def ratTrunc (q : ℚ) : Int := Int.tdiv q.num (q.den : Int)

/-- Source `clamp(n, a, b) = max(a, min(b, n))` from `main.py`, on integers. -/
def clamp (n a b : Int) : Int := max a (min b n)

/-- Model of Qt's `QRect` (integer x, y, width, height). -/
structure QRect where
  x : Int
  y : Int
  w : Int
  h : Int
  deriving DecidableEq, Repr

def QRect.left (r : QRect) : Int := r.x

def QRect.top (r : QRect) : Int := r.y

/-- Qt convention: `right() = x() + width() - 1`. -/
def QRect.right (r : QRect) : Int := r.x + r.w - 1

/-- Qt convention: `bottom() = y() + height() - 1`. -/
def QRect.bottom (r : QRect) : Int := r.y + r.h - 1

/-- Qt `QRect.center().x() = (x1 + x2) / 2` with C++ truncating division. -/
def QRect.centerX (r : QRect) : Int := Int.tdiv (r.left + r.right) 2

/-!  Phrase buckets (`main.py` lines 175-245).  -/

/-- `Buckets = List[Tuple[float, float, List[str]]]` from `main.py`. -/
abbrev Buckets := List (ℚ × ℚ × List String)

def CPU_BUCKETS : Buckets := [
  (0, 10, ["摸鱼模式 😴", "待机冥想 🧘", "风扇在休假 🌿"]),
  (10, 30, ["轻松写写 ✍️", "低功耗巡航 🛫", "小跑一下 🏃"]),
  (30, 60, ["认真干活中 🛠️", "多线程开工 🧵", "正在加班 ☕"]),
  (60, 85, ["火力全开 💪", "CPU 在狂奔 🏎️", "性能模式 ON ⚡"]),
  (85, 101, ["快冒烟了 🔥", "别再加任务了 😵", "风扇起飞 ✈️"])]

def GPU_BUCKETS : Buckets := [
  (0, 10, ["显卡在睡觉 💤", "桌面模式 🖥️", "低频养生 🌙"]),
  (10, 35, ["轻量渲染 🎨", "小试牛刀 🐮", "打个小怪 👾"]),
  (35, 65, ["稳稳输出 🎯", "正在加速 🚀", "甜品负载 🍰"]),
  (65, 90, ["光追开到爽 ✨", "显卡在燃烧 🔥", "帧数冲刺 🏁"]),
  (90, 101, ["核弹渲染 ☢️", "GPU：我尽力了 😭", "要爆了 📢"])]

def RAM_BUCKETS : Buckets := [
  (0, 25, ["内存很松 🫧", "还很空 😌", "随便开都行 🧃"]),
  (25, 55, ["占用正常 ✅", "稳稳的 🧘", "够用就好 🙂"]),
  (55, 75, ["开始拥挤了 🚶", "有点挤 😅", "注意后台 👀"]),
  (75, 90, ["内存吃紧 🧨", "要清理了 🧹", "后台太多了 😵"]),
  (90, 101, ["内存告急 🚨", "快溢出了 🫠", "请关闭点东西 😭"])]

def DISK_IO_BUCKETS : Buckets := [
  (0, 3/10, ["磁盘打盹 💤", "几乎不动 🤫", "空闲摸鱼 🫧"]),
  (3/10, 5, ["轻轻翻页 📄", "读写小忙 🧃", "稳稳的 🙂"]),
  (5, 30, ["读写加速 ⚙️", "缓存热身 🔥", "开始认真 🛠️"]),
  (30, 120, ["磁盘起飞 🚀", "吞吐拉满 💽", "别打扰我 😵"]),
  (120, 1000000000, ["IO 爆表 🚨", "疯狂读写 ☢️", "卡顿预警 ⚠️"])]

def MOOD_BUCKETS : Buckets := [
  (0, 20, ["摸鱼中 😴", "静默 🫧", "养生 🌿"]),
  (20, 40, ["巡航 🛫", "小忙 🙂", "不慌 🧘"]),
  (40, 60, ["认真 🛠️", "开工 ⚙️", "稳稳输出 ✅"]),
  (60, 80, ["加速 🚀", "火力全开 💪", "起飞 ✈️"]),
  (80, 101, ["爆肝 🔥", "快冒烟 🥵", "救命 🚨"])]

/-- Linear scan of `_pick_bucket`'s `for` loop, carrying the enumeration
index `i`; `some (i, texts)` is the first bucket with `lo <= usage < hi`. -/
def bucketScan : List (ℚ × ℚ × List String) → Nat → ℚ → Option (Nat × List String)
  | [], _, _ => none
  | (lo, hi, texts) :: rest, i, usage =>
    if lo ≤ usage ∧ usage < hi then some (i, texts) else bucketScan rest (i + 1) usage

/-- `_pick_bucket(buckets, usage)` from `main.py` lines 217-221: linear scan,
falling through to `(len(buckets) - 1, buckets[-1][2])`; `none` models the
`IndexError` that `buckets[-1]` raises on an empty table. -/
def pickBucket (buckets : Buckets) (usage : ℚ) : Option (Nat × List String) :=
  match bucketScan buckets 0 usage with
  | some r => some r
  | none =>
    match (buckets : List (ℚ × ℚ × List String)).getLast? with
    | some b => some ((buckets : List (ℚ × ℚ × List String)).length - 1, b.2.2)
    | none => none

/-- `PhraseManager.state`: a map `kind -> (bucket_index, phrase)`; the Python
`dict.get(kind, (None, ""))` default is baked into the representation. -/
def PhraseState := String → Option Nat × String

/-- Empty `PhraseManager` state (fresh `PhraseManager()`). -/
def phraseState0 : PhraseState := fun _ => (none, "")

/-- `self.state[kind] = (idx, phrase)`. -/
def updPhrase (st : PhraseState) (kind : String) (idx : Nat) (p : String) : PhraseState :=
  fun k => if k = kind then (some idx, p) else st k

/-- The fixed "no data" sentinel returned by `PhraseManager.get`. -/
def noDataPhrase : String := "数据缺席 🤷"

/-- Model of `random.choice(seq)`: the injected seed selects the element;
`none` models the `IndexError` raised on an empty sequence. -/
def randomChoice (l : List String) (seed : Nat) : Option String :=
  l.get? (seed % l.length)

/-- `PhraseManager.get(kind, usage, buckets)` from `main.py` lines 229-245.
Returns the phrase together with the updated state; the two seeds feed the
two possible `random.choice` calls. -/
def phraseGet (st : PhraseState) (kind : String) (usage : Option ℚ) (buckets : Buckets)
    (s1 s2 : Nat) : Option (String × PhraseState) :=
  match usage with
  | none => some (noDataPhrase, st)
  | some u =>
    match pickBucket buckets u with
    | none => none
    | some (idx, texts) =>
      let last := st kind
      if last.1 = some idx ∧ last.2 ≠ "" then
        some (last.2, st)
      else
        match randomChoice texts s1 with
        | none => none
        | some p0 =>
          let pr := if p0 = last.2 ∧ 1 < texts.length then
              randomChoice (texts.filter (fun t => t ≠ last.2)) s2
            else some p0
          match pr with
          | none => none
          | some p => some (p, updPhrase st kind idx p)

/-!  Cumulative-counter sampling (`main.py` lines 134-169, `sensors_psutil.py`).  -/

/-- One `psutil.disk_io_counters()` result (the fields the program reads). -/
structure DiskCounters where
  read_bytes : Int
  write_bytes : Int
  deriving DecidableEq, Repr

/-- One `psutil.net_io_counters()` result (the fields the program reads). -/
structure NetCounters where
  bytes_sent : Int
  bytes_recv : Int
  deriving DecidableEq, Repr

/-- `DiskRateReader` instance state: `self._last`, `self._last_t`. -/
structure DiskRateState where
  last : Option DiskCounters
  last_t : Option ℚ
  deriving DecidableEq, Repr

/-- Environment of one `DiskRateReader.read()` call: the
`psutil.disk_io_counters()` result (which may raise or return `None`) and
`time.time()`. -/
structure DiskReadEnv where
  counters : Except String (Option DiskCounters)
  now : ℚ

/-- Body of `DiskRateReader.read` (`main.py` lines 143-167) before the
enclosing `try`/`except`: any raise from the `psutil` call propagates as
`Except.error`. -/
def diskRateReadCore (st : DiskRateState) (env : DiskReadEnv) :
    Except String ((Option ℚ × Option ℚ) × DiskRateState) :=
  match env.counters with
  | .error e => .error e
  | .ok none => .ok ((none, none), st)
  | .ok (some cur) =>
    match st.last, st.last_t with
    | some prev, some prev_t =>
      let dt := max (1/1000 : ℚ) (env.now - prev_t)
      let read_bps := ((cur.read_bytes : ℚ) - (prev.read_bytes : ℚ)) / dt
      let write_bps := ((cur.write_bytes : ℚ) - (prev.write_bytes : ℚ)) / dt
      let r := read_bps / (1024 * 1024)
      let w := write_bps / (1024 * 1024)
      let r := if r < 0 then 0 else r
      let w := if w < 0 then 0 else w
      .ok ((some r, some w), ⟨some cur, some env.now⟩)
    | _, _ => .ok ((some 0, some 0), ⟨some cur, some env.now⟩)

/-- `DiskRateReader.read` (`main.py` lines 142-169): the whole body sits in a
`try`/`except Exception: return None, None`. -/
def diskRateRead (st : DiskRateState) (env : DiskReadEnv) :
    (Option ℚ × Option ℚ) × DiskRateState :=
  match diskRateReadCore st env with
  | .ok r => r
  | .error _ => ((none, none), st)

/-- `RateState` from `sensors_psutil.py` lines 7-13. -/
structure PsuState where
  last_ts : ℚ
  last_disk_read : Int
  last_disk_write : Int
  last_net_sent : Int
  last_net_recv : Int
  deriving DecidableEq, Repr

/-- `psutil.virtual_memory()` result (fields the program reads). -/
structure VirtualMem where
  percent : ℚ
  used : Int
  available : Int
  deriving DecidableEq, Repr

/-- `psutil.cpu_freq()` result (field the program reads). -/
structure CpuFreqInfo where
  current : ℚ
  deriving DecidableEq, Repr

/-- Environment of one `PsutilReader.read()` call: each `psutil` call either
raises (`Except.error`) or returns its (possibly `None`) value, plus
`time.time()`. -/
structure PsuEnv where
  now : ℚ
  disk_counters : Except String (Option DiskCounters)
  net_counters : Except String (Option NetCounters)
  cpu_percent : Except String (Option ℚ)
  cpu_freq : Except String (Option CpuFreqInfo)
  virtual_memory : Except String (Option VirtualMem)

/-- The dictionary returned by `PsutilReader.read` (`sensors_psutil.py`
lines 58-71). -/
structure PsuOut where
  cpu_usage : Option ℚ
  cpu_freq_psutil : Option ℚ
  ram_usage : Option ℚ
  ram_used_gb : Option ℚ
  ram_avail_gb : Option ℚ
  disk_read_mb_s : Option ℚ
  disk_write_mb_s : Option ℚ
  net_up_mb_s : Option ℚ
  net_down_mb_s : Option ℚ
  deriving DecidableEq, Repr

/-- `PsutilReader.read` (`sensors_psutil.py` lines 28-71). The method has no
`try`/`except`: any raising `psutil` call propagates to the caller. Note the
deltas are NOT clamped at zero. -/
def psutilRead (st : PsuState) (env : PsuEnv) : Except String (PsuOut × PsuState) := do
  let dt := max (1/1000 : ℚ) (env.now - st.last_ts)
  let d ← env.disk_counters
  let n ← env.net_counters
  let (disk_read_bps, disk_write_bps, st) :=
    match d with
    | some d =>
      (some (((d.read_bytes : ℚ) - (st.last_disk_read : ℚ)) / dt),
       some (((d.write_bytes : ℚ) - (st.last_disk_write : ℚ)) / dt),
       { st with last_disk_read := d.read_bytes, last_disk_write := d.write_bytes })
    | none => (none, none, st)
  let (up_bps, down_bps, st) :=
    match n with
    | some n =>
      (some (((n.bytes_sent : ℚ) - (st.last_net_sent : ℚ)) / dt),
       some (((n.bytes_recv : ℚ) - (st.last_net_recv : ℚ)) / dt),
       { st with last_net_sent := n.bytes_sent, last_net_recv := n.bytes_recv })
    | none => (none, none, st)
  let st := { st with last_ts := env.now }
  let cpu_percent ← env.cpu_percent
  let cpu_freq ← env.cpu_freq
  let vm ← env.virtual_memory
  pure ({ cpu_usage := cpu_percent,
          cpu_freq_psutil :=
            match cpu_freq with
            | some f => if f.current ≠ 0 then some f.current else none
            | none => none,
          ram_usage := vm.map VirtualMem.percent,
          ram_used_gb := vm.map (fun v => (v.used : ℚ) / (1024 ^ 3 : ℚ)),
          ram_avail_gb := vm.map (fun v => (v.available : ℚ) / (1024 ^ 3 : ℚ)),
          disk_read_mb_s := disk_read_bps.map (fun b => b / (1024 ^ 2 : ℚ)),
          disk_write_mb_s := disk_write_bps.map (fun b => b / (1024 ^ 2 : ℚ)),
          net_up_mb_s := up_bps.map (fun b => b / (1024 ^ 2 : ℚ)),
          net_down_mb_s := down_bps.map (fun b => b / (1024 ^ 2 : ℚ)) }, st)

/-!  The sampling part of `Overlay.refresh` (`main.py` lines 881-912).  -/

/-- The `self.last_*` metric fields of `Overlay` (`main.py` lines 420-426,
assigned at lines 906-912). -/
structure OverlayMetrics where
  last_cpu : Option ℚ
  last_gpu : Option ℚ
  last_ram : Option ℚ
  last_disk_r : Option ℚ
  last_disk_w : Option ℚ
  last_up : Option ℚ
  last_down : Option ℚ
  deriving DecidableEq, Repr

/-- Environment of one `Overlay.refresh()` tick: the `LhmReader.read()` call
(`gpu_load` entry; `LhmReader.read` has no enclosing `try` so it may raise),
the `PsutilReader` environment, the two fallback `psutil` calls made directly
in `refresh`, and the `DiskRateReader` environment. -/
structure RefreshEnv where
  lhm_gpu_load : Except String (Option ℚ)
  psu : PsuEnv
  cpu_percent_fallback : Except String ℚ
  vm_percent_fallback : Except String ℚ
  disk : DiskReadEnv

/-- The sampling portion of `Overlay.refresh` (`main.py` lines 881-912): reads
`lhm`, `psr`, computes CPU/RAM fallbacks (each fallback call wrapped in its
own `try`/`except`), reads the disk rate, and stores the `last_*` metrics.
Neither `self.lhm.read()` nor `self.psr.read()` is guarded by a
`try`/`except` in `refresh`. -/
def refreshSample (psuSt : PsuState) (dSt : DiskRateState) (env : RefreshEnv) :
    Except String (OverlayMetrics × PsuState × DiskRateState) := do
  let gpu_usage ← env.lhm_gpu_load
  let (psu, psuSt') ← psutilRead psuSt env.psu
  let cpu_usage : Option ℚ :=
    match psu.cpu_usage with
    | some v => some v
    | none => some (match env.cpu_percent_fallback with | .ok v => v | .error _ => 0)
  let ram_usage : Option ℚ :=
    match psu.ram_usage with
    | some v => some v
    | none => match env.vm_percent_fallback with | .ok v => some v | .error _ => none
  let ((disk_r, disk_w), dSt') := diskRateRead dSt env.disk
  pure ({ last_cpu := cpu_usage, last_gpu := gpu_usage, last_ram := ram_usage,
          last_disk_r := disk_r, last_disk_w := disk_w,
          last_up := psu.net_up_mb_s, last_down := psu.net_down_mb_s },
        psuSt', dSt')

/-!  Mood score (`Overlay._compute_mood_phrase`, `main.py` lines 663-680).  -/

/-- `Overlay.NET_SAT_MB_S = 50.0`. -/
def NET_SAT_MB_S : ℚ := 50

/-- The numeric part of `Overlay._compute_mood_phrase` (`main.py` lines
663-679): missing metrics default to `0.0`, disk MB/s normalised against a
200 MB/s ceiling and network MB/s against `NET_SAT_MB_S`, each capped at 100,
then the fixed weighted sum, finally clamped into `[0, 100]`. -/
def computeMoodScore (m : OverlayMetrics) : ℚ :=
  let cpu := m.last_cpu.getD 0
  let gpu := m.last_gpu.getD 0
  let ram := m.last_ram.getD 0
  let dr := m.last_disk_r.getD 0
  let dw := m.last_disk_w.getD 0
  let disk_mb_s := dr + dw
  let disk_norm := min 100 ((disk_mb_s / 200) * 100)
  let net := m.last_up.getD 0 + m.last_down.getD 0
  let net_norm := min 100 ((net / max (1/1000000) NET_SAT_MB_S) * 100)
  let score := 28/100 * cpu + 28/100 * gpu + 22/100 * ram
      + 10/100 * disk_norm + 12/100 * net_norm
  max 0 (min 100 score)

/-- `Overlay._compute_mood_phrase` (`main.py` line 680): the score is fed to
`self.phrases.get("mood", score, MOOD_BUCKETS)`. -/
def computeMoodPhrase (m : OverlayMetrics) (pst : PhraseState) (s1 s2 : Nat) :
    Option (String × PhraseState) :=
  phraseGet pst "mood" (some (computeMoodScore m)) MOOD_BUCKETS s1 s2

/-!  Dock planning and animated transitions (`Overlay`, `main.py`).  -/

/-- `Overlay.EDGE_SAFE_PX = 20`. -/
def EDGE_SAFE_PX : Int := 20

/-- `Overlay.EXPANDED_OPACITY = 1.00`. -/
def EXPANDED_OPACITY : ℚ := 1

/-- `Overlay.COLLAPSED_OPACITY = 0.86`. -/
def COLLAPSED_OPACITY : ℚ := 86/100

/-- Qt-side environment of the `Overlay` geometry code: the primary screen's
available geometry, plus the `QFontMetrics` data of the mood label's font
(`fm.height()` and `fm.boundingRect(ch).width()`). -/
structure UIEnv where
  screen : QRect
  line_height : Int
  char_width : Char → Int

/-- `Overlay._decide_nearest_side` (`main.py` lines 514-516): `"left"` iff
the rect's centre x is strictly below the screen's horizontal midpoint
(Python floor division `//`). -/
def decideNearestSide (env : UIEnv) (rect : QRect) : String :=
  if rect.centerX < Int.fdiv (env.screen.left + env.screen.right) 2 then "left" else "right"

/-- `Overlay._calc_collapsed_height_for_text` (`main.py` lines 518-528).
`COLLAPSED_MIN_H = 64`, `COLLAPSED_MAX_H_RATIO = 0.55`, the per-line factor
`1.05`; `int(...)` is `ratTrunc`. -/
def calcCollapsedHeightForText (env : UIEnv) (mood : String) : Int :=
  let maxH : Int := ratTrunc ((env.screen.h : ℚ) * (55/100))
  let n : Int := max 1 (mood.length : Int)
  let line_h := env.line_height
  let pad : Int := 30
  let hgt := pad + ratTrunc ((n : ℚ) * (line_h : ℚ) * (105/100))
  clamp hgt 64 maxH

/-- `Overlay._calc_collapsed_width_for_text` (`main.py` lines 530-537).
`COLLAPSED_MIN_W = 22`, `COLLAPSED_MAX_W = 52`; `mood_text or " "` falls back
to a single space when the text is empty. -/
def calcCollapsedWidthForText (env : UIEnv) (mood : String) : Int :=
  let chars := if mood = "" then [' '] else mood.toList
  let maxCharW := chars.foldl (fun acc c => max acc (env.char_width c)) 0
  clamp (maxCharW + 18) 22 52

/-- `Overlay._collapsed_rect_for` (`main.py` lines 539-548): y clamped into
the vertical safe area, x flush against the chosen edge inset by
`EDGE_SAFE_PX`. -/
def collapsedRectFor (env : UIEnv) (expanded : QRect) (side : String)
    (cw chh : Int) : QRect :=
  let s := env.screen
  let yy := clamp expanded.y (s.top + EDGE_SAFE_PX) (s.bottom - chh - EDGE_SAFE_PX)
  let xx := if side = "left" then s.left + EDGE_SAFE_PX
    else s.right - cw + 1 - EDGE_SAFE_PX
  ⟨xx, yy, cw, chh⟩

/-- The `Overlay` fields driving the collapse/expand state machine, together
with the window's live presentation (`geometry()` / `windowOpacity()`) and
the animation configuration held by `_geo_anim` / `_opa_anim`. -/
structure OverlayUI where
  cur_geo : QRect
  cur_op : ℚ
  collapsed : Bool
  expanded_geo : Option QRect
  dock_side : String
  anim_inflight : Bool
  anim_target_collapsed : Option Bool
  geo_start : QRect
  geo_end : QRect
  op_start : ℚ
  op_end : ℚ
  metrics : OverlayMetrics
  phrase_st : PhraseState

/-- `Overlay._start_anim` (`main.py` lines 496-509): stops any in-flight
group (Qt's `stop()` does not fire `finished`), marks the animation in
flight with its target, and loads the passed start/end values. -/
def startAnim (s : OverlayUI) (sg eg : QRect) (so eo : ℚ) (target : Bool) : OverlayUI :=
  { s with anim_inflight := true, anim_target_collapsed := some target,
           geo_start := sg, geo_end := eg, op_start := so, op_end := eo }

/-- `Overlay.collapse_to_edge_animated` (`main.py` lines 682-705): early
return when already collapsed; otherwise remember the expanded geometry,
decide the dock side, compute the mood phrase, eagerly set
`_anim_target_collapsed = True` and `collapsed = True`, compute the collapsed
size and target rect, and start the animation from the current geometry and
opacity (falling back to `EXPANDED_OPACITY` when the opacity is zero).
`none` models the unreachable `IndexError` inside the phrase choice. -/
def collapseToEdgeAnimated (env : UIEnv) (s : OverlayUI) (s1 s2 : Nat) :
    Option OverlayUI :=
  if s.collapsed then some s
  else
    let expanded := s.cur_geo
    let side := decideNearestSide env expanded
    match computeMoodPhrase s.metrics s.phrase_st s1 s2 with
    | none => none
    | some (mood, pst') =>
      let s' := { s with expanded_geo := some expanded, dock_side := side,
                         anim_target_collapsed := some true, collapsed := true,
                         phrase_st := pst' }
      let chh := calcCollapsedHeightForText env mood
      let cw := calcCollapsedWidthForText env mood
      let startGeo := s'.cur_geo
      let endGeo := collapsedRectFor env expanded side cw chh
      let startOp := if s'.cur_op > 0 then s'.cur_op else EXPANDED_OPACITY
      some (startAnim s' startGeo endGeo startOp COLLAPSED_OPACITY true)

/-- `Overlay.expand_animated` (`main.py` lines 707-733): early return when not
collapsed; otherwise take the remembered expanded geometry (or the default
right-docked rect), clamp it into the screen, eagerly set
`_anim_target_collapsed = False` and `collapsed = False`, and start the
animation from the current geometry and opacity (falling back to
`COLLAPSED_OPACITY` when the opacity is zero). -/
def expandAnimated (env : UIEnv) (s : OverlayUI) : OverlayUI :=
  if s.collapsed then
    let scr := env.screen
    let eg := s.expanded_geo.getD ⟨scr.right - 270, scr.top + 40, 270, 178⟩
    let s' := { s with expanded_geo := some eg,
                       anim_target_collapsed := some false, collapsed := false }
    let endGeo : QRect :=
      ⟨clamp eg.x scr.left (scr.right - eg.w),
       clamp eg.y scr.top (scr.bottom - eg.h), eg.w, eg.h⟩
    let startGeo := s'.cur_geo
    let startOp := if s'.cur_op > 0 then s'.cur_op else COLLAPSED_OPACITY
    startAnim s' startGeo endGeo startOp EXPANDED_OPACITY false
  else s

/-- `Overlay._on_anim_finished` (`main.py` lines 486-494): clear the
in-flight flag, commit `collapsed` from `_anim_target_collapsed` and pin the
window opacity to the mode's steady-state constant, then clear the target. -/
def onAnimFinished (s : OverlayUI) : OverlayUI :=
  let s := { s with anim_inflight := false }
  let s :=
    match s.anim_target_collapsed with
    | some true => { s with collapsed := true, cur_op := COLLAPSED_OPACITY }
    | some false => { s with collapsed := false, cur_op := EXPANDED_OPACITY }
    | none => s
  { s with anim_target_collapsed := none }

/-- `Overlay._is_effectively_collapsed` (`main.py` lines 481-484). -/
def isEffectivelyCollapsed (s : OverlayUI) : Bool :=
  if s.anim_inflight ∧ s.anim_target_collapsed ≠ none then
    s.anim_target_collapsed.getD false
  else s.collapsed

/-!  Derived predicates and concrete fixtures used by the theorems below.  -/

/-- A rect lies fully within the screen bounds inset by the edge margin. -/
def rectWithinInset (scr rect : QRect) : Prop :=
  scr.left + EDGE_SAFE_PX ≤ rect.x ∧ rect.x + rect.w - 1 ≤ scr.right - EDGE_SAFE_PX ∧
  scr.top + EDGE_SAFE_PX ≤ rect.y ∧ rect.y + rect.h - 1 ≤ scr.bottom - EDGE_SAFE_PX

instance (scr rect : QRect) : Decidable (rectWithinInset scr rect) := by
  unfold rectWithinInset
  infer_instance

/-- Projection: the `net_up_mb_s` entry of a (possibly raising)
`PsutilReader.read` result. -/
def psuNetUpOf (r : Except String (PsuOut × PsuState)) : Option ℚ :=
  match r with
  | .ok (o, _) => o.net_up_mb_s
  | .error _ => none

/-- Fixture: a metrics record with every sensor absent. -/
def metrics0 : OverlayMetrics := ⟨none, none, none, none, none, none, none⟩

/-- Fixture: a 1920x1080 screen at the origin with uniform font metrics. -/
def uiEnv0 : UIEnv := ⟨⟨0, 0, 1920, 1080⟩, 14, fun _ => 10⟩

/-- Fixture: an idle expanded overlay. -/
def uiExpanded0 : OverlayUI :=
  { cur_geo := ⟨100, 100, 270, 178⟩, cur_op := 1, collapsed := false,
    expanded_geo := none, dock_side := "right", anim_inflight := false,
    anim_target_collapsed := none, geo_start := ⟨0, 0, 0, 0⟩,
    geo_end := ⟨0, 0, 0, 0⟩, op_start := 1, op_end := 1,
    metrics := metrics0, phrase_st := phraseState0 }

/-- Fixture: the overlay right after `collapse_to_edge_animated` fired on
`uiExpanded0` (collapse animation in flight). -/
def uiCollapsed1 : OverlayUI :=
  (collapseToEdgeAnimated uiEnv0 uiExpanded0 0 0).getD uiExpanded0

/-- Fixture: mid-flight during the collapse animation, with the window at an
intermediate interpolated geometry and opacity. -/
def uiMidCollapse : OverlayUI :=
  { uiCollapsed1 with cur_geo := ⟨600, 100, 150, 120⟩, cur_op := 93/100 }

/-- Fixture: mid-flight during an expand animation started from
`uiCollapsed1`, with intermediate interpolated values. -/
def uiMidExpand : OverlayUI :=
  { expandAnimated uiEnv0 uiMidCollapse with
    cur_geo := ⟨300, 100, 200, 150⟩, cur_op := 95/100 }

/-- Fixture: `RateState` whose stored network-sent counter is 1 MiB. -/
def psuSt0 : PsuState := ⟨0, 0, 0, 1048576, 0⟩

/-- Fixture: a `PsutilReader.read` tick in which the OS network-sent counter
has reset to 0 (below the stored baseline of `psuSt0`). -/
def psuEnvReset : PsuEnv :=
  ⟨1, .ok none, .ok (some ⟨0, 0⟩), .ok (some 1), .ok none, .ok none⟩

/-- Fixture: a fresh `DiskRateReader` state. -/
def dSt0 : DiskRateState := ⟨none, none⟩

/-- Fixture: a `DiskRateReader` state with stored counters at 1000 bytes. -/
def dStPrev : DiskRateState := ⟨some ⟨1000, 1000⟩, some 0⟩

/-- Fixture: a disk tick whose counters have reset to 0 (below baseline). -/
def dEnvReset : DiskReadEnv := ⟨.ok (some ⟨0, 0⟩), 1⟩

/-- Fixture: a refresh tick in which `psutil.cpu_percent` (called inside
`PsutilReader.read`) raises, while everything else succeeds. -/
def refreshEnvErr : RefreshEnv :=
  { lhm_gpu_load := .ok none,
    psu := { now := 1, disk_counters := .ok none, net_counters := .ok none,
             cpu_percent := .error "cpu read failed", cpu_freq := .ok none,
             virtual_memory := .ok none },
    cpu_percent_fallback := .ok 5, vm_percent_fallback := .ok 5,
    disk := ⟨.ok none, 1⟩ }

/-!  Theorems.  -/

/-- C6: the mood score is the fixed convex combination
`0.28*cpu + 0.28*gpu + 0.22*ram + 0.10*disk_norm + 0.12*net_norm` embodied in
`computeMoodScore` (missing metrics defaulting to 0, disk normalised against
200 MB/s and network against 50 MB/s, each capped at 100), and for every
input — including values beyond the saturation constants — the final score
lies in `[0, 100]`. -/
theorem mood_score_in_range (m : OverlayMetrics) :
    0 ≤ computeMoodScore m ∧ computeMoodScore m ≤ 100 := by
  unfold computeMoodScore
  exact ⟨le_max_left _ _, max_le (by norm_num) (min_le_left _ _)⟩

/-- C8: `PhraseManager.get(kind, None, buckets)` returns the fixed "no data"
sentinel and leaves the stored per-kind state unchanged, for every kind,
state, bucket table and random seed. -/
theorem no_data_returns_sentinel_and_preserves_state (st : PhraseState)
    (kind : String) (buckets : Buckets) (s1 s2 : Nat) :
    phraseGet st kind none buckets s1 s2 = some (noDataPhrase, st) := rfl

/-- C4: when `_on_anim_finished` fires with the target still set (the
animation ran to completion uninterrupted), the committed mode equals the
target mode and the window opacity is pinned exactly to that mode's
steady-state constant, with the in-flight flag cleared. -/
theorem anim_finish_commits_mode_and_opacity (s : OverlayUI) :
    (s.anim_target_collapsed = some true →
      (onAnimFinished s).collapsed = true ∧
      (onAnimFinished s).cur_op = COLLAPSED_OPACITY ∧
      (onAnimFinished s).anim_inflight = false) ∧
    (s.anim_target_collapsed = some false →
      (onAnimFinished s).collapsed = false ∧
      (onAnimFinished s).cur_op = EXPANDED_OPACITY ∧
      (onAnimFinished s).anim_inflight = false) := by
  unfold onAnimFinished
  constructor <;> intro h <;> rw [h] <;> exact ⟨rfl, rfl, rfl⟩

/-- C4 witness: the collapse animation started from `uiExpanded0` completes
and commits `Collapsed` with opacity exactly `COLLAPSED_OPACITY`. -/
theorem anim_finish_commits_mode_and_opacity_witness :
    uiCollapsed1.anim_target_collapsed = some true ∧
    ((onAnimFinished uiCollapsed1).collapsed = true ∧
     (onAnimFinished uiCollapsed1).cur_op = COLLAPSED_OPACITY ∧
     (onAnimFinished uiCollapsed1).anim_inflight = false) :=
  ⟨by with_unfolding_all rfl,
   (anim_finish_commits_mode_and_opacity uiCollapsed1).1 (by with_unfolding_all rfl)⟩

/-- C3 counterexample: starting a collapse animation from an expanded overlay
immediately commits `collapsed = true` while the animation is still in
flight — the committed mode does NOT remain the pre-animation mode during
the animation. -/
theorem mode_eagerly_committed_during_anim_cex :
    uiExpanded0.collapsed = false ∧
    (collapseToEdgeAnimated uiEnv0 uiExpanded0 0 0).map
      (fun s => (s.anim_inflight, s.collapsed)) = some (true, true) :=
  ⟨rfl, by with_unfolding_all rfl⟩

/-- C3 (amended): when an animation starts, the committed mode field is
eagerly set to the target mode (together with `in_flight`/`target_mode`),
rather than remaining the pre-animation mode, in BOTH directions:
`collapse_to_edge_animated` sets `collapsed = true` and `expand_animated`
sets `collapsed = false` already at animation start; `_on_anim_finished`
then (re)assigns the committed mode from `target_mode` on completion. -/
theorem mode_committed_eagerly_at_start (env : UIEnv) (s : OverlayUI) :
    (∀ s1 s2 s', s.collapsed = false →
      collapseToEdgeAnimated env s s1 s2 = some s' →
      s'.anim_inflight = true ∧ s'.collapsed = true ∧
      s'.anim_target_collapsed = some true) ∧
    (s.collapsed = true →
      (expandAnimated env s).anim_inflight = true ∧
      (expandAnimated env s).collapsed = false ∧
      (expandAnimated env s).anim_target_collapsed = some false) ∧
    (∀ t : OverlayUI,
      (onAnimFinished t).collapsed = t.anim_target_collapsed.getD t.collapsed) := by
  refine ⟨?_, ?_, ?_⟩
  · intro s1 s2 s' hc h
    unfold collapseToEdgeAnimated at h
    rw [hc] at h
    simp only [Bool.false_eq_true, if_false] at h
    rcases hm : computeMoodPhrase s.metrics s.phrase_st s1 s2 with _ | ⟨mood, pst'⟩
    · rw [hm] at h
      exact absurd h (by simp)
    · rw [hm] at h
      rw [Option.some.injEq] at h
      subst h
      exact ⟨rfl, rfl, rfl⟩
  · intro hc
    unfold expandAnimated startAnim
    rw [hc]
    simp
  · intro t
    rcases ht : t.anim_target_collapsed with _ | b
    · simp [onAnimFinished, ht]
    · rcases b <;> simp [onAnimFinished, ht]

/-- C3 witness: the amended statement exercised in both directions — the
concrete collapse fired from `uiExpanded0`, and an expand fired from the
(eagerly collapsed) state `uiCollapsed1`. -/
theorem mode_committed_eagerly_at_start_witness :
    (uiExpanded0.collapsed = false ∧
     collapseToEdgeAnimated uiEnv0 uiExpanded0 0 0 = some uiCollapsed1 ∧
     (uiCollapsed1.anim_inflight = true ∧ uiCollapsed1.collapsed = true ∧
      uiCollapsed1.anim_target_collapsed = some true)) ∧
    (uiCollapsed1.collapsed = true ∧
     ((expandAnimated uiEnv0 uiCollapsed1).anim_inflight = true ∧
      (expandAnimated uiEnv0 uiCollapsed1).collapsed = false ∧
      (expandAnimated uiEnv0 uiCollapsed1).anim_target_collapsed = some false)) :=
  ⟨⟨rfl, by with_unfolding_all rfl,
    (mode_committed_eagerly_at_start uiEnv0 uiExpanded0).1 0 0 uiCollapsed1 rfl
      (by with_unfolding_all rfl)⟩,
   ⟨by with_unfolding_all rfl,
    (mode_committed_eagerly_at_start uiEnv0 uiCollapsed1).2.1
      (by with_unfolding_all rfl)⟩⟩

/-- C9: starting a new animation while one is in flight loads the new
animation's start geometry and start opacity from the window's *current*
(possibly mid-interpolation) geometry and opacity — not from the previous
animation's original start or end values. Stated for both interruption
directions: an expand interrupting a collapse animation, and a collapse
interrupting an expand animation (positive current opacity, as holds
mid-interpolation between the two steady-state constants). -/
theorem interruption_starts_from_current (env : UIEnv) (s : OverlayUI) :
    (s.anim_inflight = true → s.collapsed = true → 0 < s.cur_op →
      (expandAnimated env s).geo_start = s.cur_geo ∧
      (expandAnimated env s).op_start = s.cur_op ∧
      (expandAnimated env s).anim_inflight = true ∧
      (expandAnimated env s).anim_target_collapsed = some false) ∧
    (∀ s1 s2 s', s.anim_inflight = true → s.collapsed = false → 0 < s.cur_op →
      collapseToEdgeAnimated env s s1 s2 = some s' →
      s'.geo_start = s.cur_geo ∧ s'.op_start = s.cur_op ∧
      s'.anim_inflight = true ∧ s'.anim_target_collapsed = some true) := by
  constructor
  · intro _ hc hop
    unfold expandAnimated startAnim
    rw [hc]
    simp [hop]
  · intro s1 s2 s' _ hc hop h
    unfold collapseToEdgeAnimated at h
    rw [hc] at h
    simp only [Bool.false_eq_true, if_false] at h
    rcases hm : computeMoodPhrase s.metrics s.phrase_st s1 s2 with _ | ⟨mood, pst'⟩
    · rw [hm] at h
      exact absurd h (by simp)
    · rw [hm] at h
      rw [Option.some.injEq] at h
      subst h
      unfold startAnim
      simp [hop]

/-- C9 witness: an expand fired while the collapse animation from
`uiExpanded0` is mid-flight starts from the mid-interpolation values of
`uiMidCollapse`. -/
theorem interruption_starts_from_current_witness :
    (uiMidCollapse.anim_inflight = true ∧ uiMidCollapse.collapsed = true ∧
     (0 : ℚ) < uiMidCollapse.cur_op) ∧
    ((expandAnimated uiEnv0 uiMidCollapse).geo_start = uiMidCollapse.cur_geo ∧
     (expandAnimated uiEnv0 uiMidCollapse).op_start = uiMidCollapse.cur_op ∧
     (expandAnimated uiEnv0 uiMidCollapse).anim_inflight = true ∧
     (expandAnimated uiEnv0 uiMidCollapse).anim_target_collapsed = some false) :=
  ⟨⟨by with_unfolding_all rfl, by with_unfolding_all rfl, by with_unfolding_all rfl⟩,
   (interruption_starts_from_current uiEnv0 uiMidCollapse).1
     (by with_unfolding_all rfl) (by with_unfolding_all rfl) (by with_unfolding_all rfl)⟩

/-- C7 counterexample: for the 1920x1080 screen, side `"right"` and a
collapsed width of 2000 (the claim quantifies over *every* collapsed size),
the docked rect computed by `_collapsed_rect_for` sticks out past the left
edge, so it does not lie within the screen bounds inset by the margin. -/
theorem docked_rect_escapes_screen_cex :
    ¬ rectWithinInset uiEnv0.screen
        (collapsedRectFor uiEnv0 ⟨100, 100, 270, 178⟩ "right" 2000 64) := by
  decide

/-- C7 (amended): `_decide_nearest_side` returns `"left"` exactly when the
rect's centre x is strictly below the screen's horizontal midpoint (and
`"right"` otherwise); and for every side and every collapsed size that fits
(width at most screen width minus both edge margins, height at most screen
height minus both margins and one rounding pixel), the docked rect lies
fully within the screen bounds inset by the edge margin. -/
theorem dock_side_iff_and_docked_rect_fits (env : UIEnv) :
    (∀ r : QRect, decideNearestSide env r = "left" ↔
      r.centerX < Int.fdiv (env.screen.left + env.screen.right) 2) ∧
    (∀ (expanded : QRect) (side : String) (cw chh : Int),
      cw ≤ env.screen.w - 2 * EDGE_SAFE_PX →
      chh ≤ env.screen.h - (2 * EDGE_SAFE_PX + 1) →
      rectWithinInset env.screen (collapsedRectFor env expanded side cw chh)) := by
  constructor
  · intro r
    unfold decideNearestSide
    by_cases h : r.centerX < Int.fdiv (env.screen.left + env.screen.right) 2
    · rw [if_pos h]
      exact iff_of_true rfl h
    · rw [if_neg h]
      exact iff_of_false (by decide) h
  · intro expanded side cw chh hcw hchh
    unfold EDGE_SAFE_PX at hcw hchh
    unfold rectWithinInset collapsedRectFor clamp EDGE_SAFE_PX
    unfold QRect.left QRect.right QRect.top QRect.bottom
    by_cases hs : side = "left" <;>
      simp only [hs, reduceIte] <;>
      simp only [max_def, min_def] <;>
      split_ifs <;>
      refine ⟨?_, ?_, ?_, ?_⟩ <;>
      omega

/-- C7 witness: the amended fit statement at a concrete in-range size. -/
theorem dock_side_iff_and_docked_rect_fits_witness :
    ((52 : Int) ≤ uiEnv0.screen.w - 2 * EDGE_SAFE_PX ∧
     (64 : Int) ≤ uiEnv0.screen.h - (2 * EDGE_SAFE_PX + 1)) ∧
    rectWithinInset uiEnv0.screen
      (collapsedRectFor uiEnv0 ⟨100, 100, 270, 178⟩ "right" 52 64) :=
  ⟨by decide,
   (dock_side_iff_and_docked_rect_fits uiEnv0).2 ⟨100, 100, 270, 178⟩ "right" 52 64
     (by decide) (by decide)⟩

/-- C1 counterexample: a network-counter reset (stored baseline 1 MiB, fresh
reading 0) makes `PsutilReader.read` report a strictly negative upload rate
of -1 MB/s — the network streams are not clamped at zero. -/
theorem net_rate_negative_on_reset_cex :
    psuNetUpOf (psutilRead psuSt0 psuEnvReset) = some (-1) ∧ ((-1 : ℚ) < 0) :=
  ⟨by with_unfolding_all rfl, by norm_num⟩

/-- C1 (amended): the disk rates computed by `DiskRateReader.read` are always
non-negative — negative deltas from a counter reset or wrap are clamped to
zero — for every prior state and every tick environment. (The network rates
of `PsutilReader.read` are raw delta over elapsed time and carry no such
clamp.) -/
theorem disk_rate_nonneg (st : DiskRateState) (env : DiskReadEnv) :
    (∀ r, (diskRateRead st env).1.1 = some r → 0 ≤ r) ∧
    (∀ w, (diskRateRead st env).1.2 = some w → 0 ≤ w) := by
  obtain ⟨cnt, nowv⟩ := env
  unfold diskRateRead diskRateReadCore
  rcases cnt with e | cnt2
  · exact ⟨fun v hv => by simp at hv, fun v hv => by simp at hv⟩
  · rcases cnt2 with _ | cur
    · exact ⟨fun v hv => by simp at hv, fun v hv => by simp at hv⟩
    · obtain ⟨lastc, lastt⟩ := st
      rcases lastc with _ | prev <;> rcases lastt with _ | pt <;>
        constructor <;> intro v hv <;>
        rw [Option.some.injEq] at hv <;> subst hv
      case some.some.left | some.some.right =>
        split
        · exact le_refl 0
        · next hneg => exact le_of_not_lt hneg
      all_goals exact le_refl 0

/-- C1 witness: a disk-counter reset (baseline 1000 bytes, fresh reading 0)
yields a clamped rate of exactly 0, which is non-negative. -/
theorem disk_rate_nonneg_witness :
    (diskRateRead dStPrev dEnvReset).1.1 = some 0 ∧ (0 : ℚ) ≤ 0 :=
  ⟨by with_unfolding_all rfl,
   (disk_rate_nonneg dStPrev dEnvReset).1 0 (by with_unfolding_all rfl)⟩

/-- C2 counterexample: when `psutil.cpu_percent` raises inside
`PsutilReader.read` (all other sensor calls succeeding), the error is not
caught at the sampling boundary and propagates out of `Overlay.refresh` —
the refresh tick raises instead of reporting the metric as unavailable. -/
theorem refresh_propagates_sensor_error_cex :
    refreshSample psuSt0 dSt0 refreshEnvErr = Except.error "cpu read failed" := by
  with_unfolding_all rfl

/-- C2 (amended): an error raised by the OS counter read inside
`DiskRateReader.read` is caught at the sampling boundary and converted to the
optional absence `(None, None)` with the stored state untouched; but
`PsutilReader.read` has no such boundary, so an error raised by
`psutil.cpu_percent` inside it propagates out of `Overlay.refresh` uncaught. -/
theorem sampling_error_boundaries (psuSt : PsuState) (dSt : DiskRateState)
    (env : RefreshEnv) :
    (∀ e now2, diskRateRead dSt ⟨Except.error e, now2⟩ = ((none, none), dSt)) ∧
    (∀ e g dcs ncs,
      env.psu.cpu_percent = Except.error e →
      env.lhm_gpu_load = Except.ok g →
      env.psu.disk_counters = Except.ok dcs →
      env.psu.net_counters = Except.ok ncs →
      refreshSample psuSt dSt env = Except.error e) := by
  constructor
  · intro e now2
    rfl
  · intro e g dcs ncs h1 h2 h3 h4
    obtain ⟨lhm, psuE, cpuF, vmF, dskE⟩ := env
    obtain ⟨nowv, dC, nC, cP, cF, vM⟩ := psuE
    simp only at h1 h2 h3 h4
    subst h1 h2 h3 h4
    rcases dcs with _ | d0 <;> rcases ncs with _ | n0 <;> rfl

/-- C2 witness: the propagation branch instantiated at the concrete erroring
tick `refreshEnvErr`. -/
theorem sampling_error_boundaries_witness :
    refreshEnvErr.psu.cpu_percent = Except.error "cpu read failed" ∧
    refreshSample psuSt0 dSt0 refreshEnvErr = Except.error "cpu read failed" :=
  ⟨rfl,
   (sampling_error_boundaries psuSt0 dSt0 refreshEnvErr).2 "cpu read failed"
     none none none rfl rfl rfl rfl⟩

/-- Helper: `randomChoice` only returns elements of its list. -/
theorem randomChoice_mem (l : List String) (s : Nat) (p : String)
    (h : randomChoice l s = some p) : p ∈ l := by
  unfold randomChoice at h
  exact List.get?_mem h

/-- Helper: a hit of the `_pick_bucket` linear scan is a bucket of the
table. -/
theorem bucketScan_mem (bs : List (ℚ × ℚ × List String)) :
    ∀ (i : Nat) (u : ℚ) (j : Nat) (ts : List String),
      bucketScan bs i u = some (j, ts) → ∃ lo hi, (lo, hi, ts) ∈ bs := by
  induction bs with
  | nil =>
    intro i u j ts h
    simp [bucketScan] at h
  | cons b rest ih =>
    intro i u j ts h
    obtain ⟨lo, hi, texts⟩ := b
    unfold bucketScan at h
    split at h
    · rw [Option.some.injEq, Prod.mk.injEq] at h
      obtain ⟨-, h2⟩ := h
      subst h2
      exact ⟨lo, hi, List.mem_cons_self _ _⟩
    · obtain ⟨lo2, hi2, hmem⟩ := ih (i + 1) u j ts h
      exact ⟨lo2, hi2, List.mem_cons_of_mem _ hmem⟩

/-- Helper: the bucket `_pick_bucket` returns (by scan hit or by the
last-bucket fallthrough) is a bucket of the table. -/
theorem pickBucket_mem (bs : Buckets) (u : ℚ) (j : Nat) (ts : List String)
    (h : pickBucket bs u = some (j, ts)) : ∃ lo hi, (lo, hi, ts) ∈ bs := by
  unfold pickBucket at h
  rcases hscan : bucketScan bs 0 u with _ | r
  · rw [hscan] at h
    rcases hlast : bs.getLast? with _ | b
    · rw [hlast] at h
      exact absurd h (by simp)
    · rw [hlast] at h
      rw [Option.some.injEq, Prod.mk.injEq] at h
      obtain ⟨-, h2⟩ := h
      subst h2
      have hb : b ∈ bs := by
        obtain ⟨hne, heq⟩ :=
          List.mem_getLast?_eq_getLast (l := bs) (x := b)
            (by rw [Option.mem_def, hlast])
        rw [heq]
        exact List.getLast_mem hne
      exact ⟨b.1, b.2.1, by rwa [show (b.1, b.2.1, b.2.2) = b from rfl]⟩
  · rw [hscan] at h
    rw [Option.some.injEq] at h
    subst h
    exact bucketScan_mem bs 0 u j ts hscan

/-- Helper: after a successful `PhraseManager.get` with a present value, the
per-kind state holds exactly the returned phrase together with the bucket
index `_pick_bucket` located, and the returned phrase is either non-empty
(hysteresis path) or drawn from that bucket's candidate list. -/
theorem phraseGet_state_after (st : PhraseState) (kind : String) (v : ℚ)
    (bs : Buckets) (s1 s2 : Nat) (i : Nat) (ts : List String) (p : String)
    (st' : PhraseState)
    (hpb : pickBucket bs v = some (i, ts))
    (hg : phraseGet st kind (some v) bs s1 s2 = some (p, st')) :
    st' kind = (some i, p) ∧ (p ≠ "" ∨ p ∈ ts) := by
  unfold phraseGet at hg
  dsimp only at hg
  rw [hpb] at hg
  dsimp only at hg
  split at hg
  case isTrue hcond =>
    rw [Option.some.injEq, Prod.mk.injEq] at hg
    obtain ⟨hp, hst⟩ := hg
    subst hp
    subst hst
    refine ⟨?_, Or.inl hcond.2⟩
    rw [← hcond.1]
  case isFalse hcond =>
    rcases hrc : randomChoice ts s1 with _ | p0
    · rw [hrc] at hg
      simp at hg
    · rw [hrc] at hg
      dsimp only at hg
      rcases hpr : (if p0 = (st kind).2 ∧ 1 < ts.length then
          randomChoice (ts.filter (fun t => t ≠ (st kind).2)) s2 else some p0)
        with _ | p1
      · rw [hpr] at hg
        simp at hg
      · rw [hpr] at hg
        dsimp only at hg
        rw [Option.some.injEq, Prod.mk.injEq] at hg
        obtain ⟨hp, hst⟩ := hg
        subst hp
        subst hst
        refine ⟨by simp [updPhrase], Or.inr ?_⟩
        split at hpr
        · exact List.mem_of_mem_filter (randomChoice_mem _ _ _ hpr)
        · rw [Option.some.injEq] at hpr
          subst hpr
          exact randomChoice_mem _ _ _ hrc

/-- C5: for any bucket table whose candidate phrases are all non-empty
strings (as in every table of the program) and any two values `v1`, `v2`
that `_pick_bucket` maps to the same bucket index, a `PhraseManager.get`
call for `v2` made immediately after the call for `v1` returns the identical
phrase string (and leaves the state untouched), whatever random draws were
used — phrase hysteresis within a bucket. -/
theorem phrase_hysteresis_same_bucket (bs : Buckets)
    (hwf : ∀ b ∈ bs, ∀ p ∈ b.2.2, p ≠ "")
    (v1 v2 : ℚ) (i : Nat) (ts1 ts2 : List String)
    (h1 : pickBucket bs v1 = some (i, ts1))
    (h2 : pickBucket bs v2 = some (i, ts2))
    (st : PhraseState) (kind : String) (s1 s2 s1' s2' : Nat)
    (p1 : String) (st1 : PhraseState)
    (hg : phraseGet st kind (some v1) bs s1 s2 = some (p1, st1)) :
    phraseGet st1 kind (some v2) bs s1' s2' = some (p1, st1) := by
  obtain ⟨hstate, hne⟩ := phraseGet_state_after st kind v1 bs s1 s2 i ts1 p1 st1 h1 hg
  have hp1ne : p1 ≠ "" := by
    rcases hne with h | hmem
    · exact h
    · obtain ⟨lo, hi, hb⟩ := pickBucket_mem bs v1 i ts1 h1
      exact hwf (lo, hi, ts1) hb p1 hmem
  unfold phraseGet
  dsimp only
  rw [h2, hstate]
  dsimp only
  rw [if_pos ⟨rfl, hp1ne⟩]

/-- C5 witness: two CPU readings 45 and 50 land in the same bucket
`[30, 60)`; the second `get` returns the very phrase the first one chose. -/
theorem phrase_hysteresis_same_bucket_witness :
    (∀ b ∈ CPU_BUCKETS, ∀ p ∈ b.2.2, p ≠ "") ∧
    pickBucket CPU_BUCKETS 45 = some (2, ["认真干活中 🛠️", "多线程开工 🧵", "正在加班 ☕"]) ∧
    pickBucket CPU_BUCKETS 50 = some (2, ["认真干活中 🛠️", "多线程开工 🧵", "正在加班 ☕"]) ∧
    phraseGet phraseState0 "cpu" (some 45) CPU_BUCKETS 0 0 =
      some ("认真干活中 🛠️", updPhrase phraseState0 "cpu" 2 "认真干活中 🛠️") ∧
    phraseGet (updPhrase phraseState0 "cpu" 2 "认真干活中 🛠️") "cpu" (some 50)
        CPU_BUCKETS 0 0 =
      some ("认真干活中 🛠️", updPhrase phraseState0 "cpu" 2 "认真干活中 🛠️") :=
  ⟨by decide, by decide, by decide, by with_unfolding_all rfl,
   phrase_hysteresis_same_bucket CPU_BUCKETS (by decide) 45 50 2
     ["认真干活中 🛠️", "多线程开工 🧵", "正在加班 ☕"]
     ["认真干活中 🛠️", "多线程开工 🧵", "正在加班 ☕"]
     (by decide) (by decide) phraseState0 "cpu" 0 0 0 0
     "认真干活中 🛠️" (updPhrase phraseState0 "cpu" 2 "认真干活中 🛠️")
     (by with_unfolding_all rfl)⟩

/-- Helper: when every bucket's lower bound exceeds the probed value, the
linear scan of `_pick_bucket` finds nothing. -/
theorem bucketScan_none_of_below (u : ℚ) (bs : List (ℚ × ℚ × List String)) :
    ∀ i : Nat, (∀ b ∈ bs, ¬ b.1 ≤ u) → bucketScan bs i u = none := by
  induction bs with
  | nil =>
    intro i _
    rfl
  | cons b rest ih =>
    intro i hall
    obtain ⟨lo, hi, texts⟩ := b
    unfold bucketScan
    rw [if_neg]
    · exact ih (i + 1) (fun b hb => hall b (List.mem_cons_of_mem _ hb))
    · intro hcond
      exact hall (lo, hi, texts) (List.mem_cons_self _ _) hcond.1

/-- C10: for any non-empty bucket table whose lower bounds are all at least
the first bucket's lower bound (as in every table of the program), any value
strictly below that first lower bound — for example any negative value —
matches no bucket in `_pick_bucket`'s linear scan and falls through to the
LAST bucket's index and phrase list, so out-of-range-low values get the
highest-severity bucket. -/
theorem pick_bucket_below_range_falls_to_last (bs : Buckets) (lo0 hi0 : ℚ)
    (ts0 : List String) (hhead : bs.head? = some (lo0, hi0, ts0))
    (hmono : ∀ b ∈ bs, lo0 ≤ b.1) (u : ℚ) (hu : u < lo0)
    (bl : ℚ × ℚ × List String) (hlast : bs.getLast? = some bl) :
    pickBucket bs u = some (bs.length - 1, bl.2.2) := by
  have hscan : bucketScan bs 0 u = none :=
    bucketScan_none_of_below u bs 0
      (fun b hb hle => absurd (le_trans (hmono b hb) hle) (not_le.mpr hu))
  unfold pickBucket
  rw [hscan, hlast]

/-- C10 witness: the out-of-range value -5 on the CPU table is assigned the
last (highest-severity) bucket, index 4. -/
theorem pick_bucket_below_range_falls_to_last_witness :
    (CPU_BUCKETS.head? =
       some ((0 : ℚ), (10 : ℚ), ["摸鱼模式 😴", "待机冥想 🧘", "风扇在休假 🌿"]) ∧
     (∀ b ∈ CPU_BUCKETS, (0 : ℚ) ≤ b.1) ∧ ((-5 : ℚ) < 0)) ∧
    pickBucket CPU_BUCKETS (-5) =
      some (4, ["快冒烟了 🔥", "别再加任务了 😵", "风扇起飞 ✈️"]) :=
  ⟨⟨by decide, by decide, by norm_num⟩,
   pick_bucket_below_range_falls_to_last CPU_BUCKETS 0 10
     ["摸鱼模式 😴", "待机冥想 🧘", "风扇在休假 🌿"] (by decide) (by decide)
     (-5) (by norm_num)
     ((85 : ℚ), (101 : ℚ), ["快冒烟了 🔥", "别再加任务了 😵", "风扇起飞 ✈️"])
     (by decide)⟩

end MonitorOverlay
